import Mathlib

/-!
Verification of `documentmanager.py` (Supabase-cursor-pdftoimages).

The program is a single-file ingestion utility: `get_file_info` reads
filesystem metadata, `_determine_file_type` classifies an extension,
`process_document` opens a PDF, prompts the operator, inserts one
Document row and one Page row per page through the Supabase client.

The embedding below is a shallow model of that file.  External
collaborators (filesystem, PyMuPDF, Supabase, stdin) are an explicit
environment `Env`; `process_document` is a pure function from `Env` to a
result (mirroring the Python return value or an uncaught exception)
paired with a `Trace` of observable effects: backend rows persisted by
successful insert calls, image files written, and whether the document
handle was opened and closed.  An insert call that raises persists no
row and leaves no event; the generic `except` handler of the source
turns any raise inside the try block into a printed message, a
`doc.close()`, and `return False`.
-/

/-- A value inside an insert payload (Python dict values used here are
strings and ints). -/
inductive Value
  | str (s : String)
  | nat (n : Nat)
deriving DecidableEq, Repr

/-- An insert payload: ordered field/value pairs, as the Python dict
literal is written. -/
abbrev Payload := List (String × Value)

/-- An observable backend mutation.  The source only ever performs
inserts; the `delete` constructor exists so "no compensating delete is
issued" is a statement about the trace, not a vacuity of the type. -/
inductive Event
  | insert (table : String) (payload : Payload)
  | delete (table : String)
deriving DecidableEq, Repr

/-- The observable effects of one `process_document` call: backend rows
persisted (in order), image files written (in order), whether the
rendering handle was opened, and whether it was closed. -/
structure Trace where
  events : List Event
  files : List String
  opened : Bool
  closed : Bool
deriving DecidableEq, Repr

/-- The outcome of a Python call: a returned value (`None`, `False` or
`True` for `process_document`) or an uncaught exception. -/
inductive PyResult
  | ret (v : Option Bool)
  | raised (msg : String)
deriving DecidableEq, Repr

/-- The environment: everything the external collaborators decide.
`pageInsertOk n` says whether the backend insert for 1-based page `n`
succeeds; `openResult = none` means `fitz.open` raises. -/
structure Env where
  pathExists : Bool
  fileName : String
  fileSize : Nat
  ctime : String
  mtime : String
  openResult : Option Nat
  author : String
  title : String
  description : String
  versionInput : String
  docInsertResult : Option Nat
  pageInsertOk : Nat → Bool
  pageImage : Nat → String

/-- Index of the last dot in a character list, if any
(model of Python `str.rfind` restricted to what `pathlib` needs). -/
def lastDotIdx (cs : List Char) : Option Nat :=
  (List.range cs.length).foldl
    (fun acc i => if cs.get? i = some ('.' : Char) then some i else acc) none

/-- Model of CPython `PurePath.suffix` on a base name: the final
extension including the dot, empty when the last dot is at index 0
(hidden file) or is the final character or there is none. -/
def pySuffix (name : String) : String :=
  let cs := name.toList
  match lastDotIdx cs with
  | some i => if 0 < i ∧ i + 1 < cs.length then String.mk (cs.drop i) else ""
  | none => ""

/-- Model of CPython `PurePath.stem`: the base name with `pySuffix`
removed. -/
def pyStem (name : String) : String :=
  let cs := name.toList
  match lastDotIdx cs with
  | some i => if 0 < i ∧ i + 1 < cs.length then String.mk (cs.take i) else name
  | none => name

/-- Model of Python `str.lower` (ASCII case mapping, which is all the
classification table exercises). -/
def pyLower (s : String) : String := String.mk (s.toList.map Char.toLower)

/-- Model of the Python slice `s[1:]`: the string without its first
character. -/
def pyDropFirst (s : String) : String := String.mk (s.toList.drop 1)

/-- `DocumentManager._determine_file_type` (documentmanager.py lines
33-43): lower-case the extension, look it up in the fixed table,
default to Other. -/
def determine_file_type (extension : String) : String :=
  let e := pyLower extension
  if e = ".pdf" then "PDF"
  else if e = ".doc" then "Word"
  else if e = ".docx" then "Word"
  else if e = ".ppt" then "PowerPoint"
  else if e = ".pptx" then "PowerPoint"
  else "Other"

/-- The record `DocumentManager.get_file_info` returns. -/
structure FileInfo where
  filename : String
  file_extension : String
  file_type : String
  size_kb : Nat
  created_at : String
  last_modified : String
deriving DecidableEq, Repr

/-- `DocumentManager.get_file_info` (documentmanager.py lines 20-31):
`path.suffix[1:]` drops the first character of the suffix (the dot) and
nothing else; `stats.st_size // 1024`; timestamps from the stat call. -/
def get_file_info (env : Env) : FileInfo :=
  { filename := env.fileName
    file_extension := pyDropFirst (pySuffix env.fileName)
    file_type := determine_file_type (pySuffix env.fileName)
    size_kb := env.fileSize / 1024
    created_at := env.ctime
    last_modified := env.mtime }

/-- The output file name for 1-based page `n`:
`f"{base_filename}-p{page_num + 1}.jpg"`. -/
def pageFileName (base : String) (n : Nat) : String :=
  base ++ "-p" ++ toString n ++ ".jpg"

/-- The `page_data` dict for 1-based page `n` (documentmanager.py lines
100-104). -/
def pagePayload (env : Env) (docId n : Nat) : Payload :=
  [("document_id", Value.nat docId),
   ("page_number", Value.nat n),
   ("page_image", Value.str (env.pageImage n))]

/-- The `document_data` dict (documentmanager.py lines 69-79), with the
`or "1.0"` default for an empty version response already applied as in
line 66. -/
def documentPayload (env : Env) (pageCount : Nat) : Payload :=
  let fi := get_file_info env
  let version := if env.versionInput = "" then "1.0" else env.versionInput
  [("filename", Value.str fi.filename),
   ("file_extension", Value.str fi.file_extension),
   ("file_type", Value.str fi.file_type),
   ("size_kb", Value.nat fi.size_kb),
   ("author", Value.str env.author),
   ("description", Value.str env.description),
   ("page_count", Value.nat pageCount),
   ("title", Value.str env.title),
   ("version", Value.str version)]

/-- The page loop of `process_document` (documentmanager.py lines
87-107) over the remaining 0-based page indices: for each page the
image file is written first, then the page insert is attempted; if the
insert raises, the loop stops with the rows persisted so far (the
failing page's file is already on disk).  Returns persisted page
events, files written, and whether the loop completed. -/
def processPages (env : Env) (docId : Nat) (base : String) :
    List Nat → List Event × List String × Bool
  | [] => ([], [], true)
  | pageNum :: rest =>
    let n := pageNum + 1
    let file := pageFileName base n
    if env.pageInsertOk n then
      let r := processPages env docId base rest
      (Event.insert "document_pages" (pagePayload env docId n) :: r.1,
       file :: r.2.1, r.2.2)
    else
      ([], [file], false)

/-- `DocumentManager.process_document` (documentmanager.py lines
45-117).  Missing path: print and bare `return` (Python `None`).
`fitz.open` failure: raises outside the try block, uncaught.  Inside
the try block, a document-insert or page-insert raise is caught
generically: print, `doc.close()`, `return False`.  Success path closes
the handle and returns `True`. -/
def process_document (env : Env) : PyResult × Trace :=
  if env.pathExists then
    match env.openResult with
    | none => (PyResult.raised "fitz.open", ⟨[], [], false, false⟩)
    | some pageCount =>
      let docData := documentPayload env pageCount
      match env.docInsertResult with
      | none => (PyResult.ret (some false), ⟨[], [], true, true⟩)
      | some docId =>
        let base := pyStem env.fileName
        let r := processPages env docId base (List.range pageCount)
        let events := Event.insert "documents" docData :: r.1
        if r.2.2 then
          (PyResult.ret (some true), ⟨events, r.2.1, true, true⟩)
        else
          (PyResult.ret (some false), ⟨events, r.2.1, true, true⟩)
  else
    (PyResult.ret none, ⟨[], [], false, false⟩)

/-- Whether an event is an insert into `document_pages`. -/
def isPageInsert : Event → Bool
  | Event.insert t _ => t = "document_pages"
  | Event.delete _ => false

/-- Whether an event is an insert into `documents`. -/
def isDocInsert : Event → Bool
  | Event.insert t _ => t = "documents"
  | Event.delete _ => false

/-- Events of a trace that are inserts into `document_pages`. -/
def pageInsertEvents (tr : Trace) : List Event :=
  tr.events.filter isPageInsert

/-- Events of a trace that are inserts into `documents`. -/
def docInsertEvents (tr : Trace) : List Event :=
  tr.events.filter isDocInsert

/-- Look a field up in an insert payload. -/
def eventField (e : Event) (key : String) : Option Value :=
  match e with
  | Event.insert _ p => (p.find? fun kv => kv.1 = key).map Prod.snd
  | Event.delete _ => none

/-- The `page_number` value of an insert payload, if present and
numeric. -/
def pageNumOf (e : Event) : Option Nat :=
  match eventField e "page_number" with
  | some (Value.nat n) => some n
  | _ => none

/-- The `page_number` values of the page inserts of a trace, in
insertion order. -/
def pageNumbersOf (tr : Trace) : List Nat :=
  (pageInsertEvents tr).filterMap pageNumOf

/-- Whether an event is a delete. -/
def isDelete : Event → Bool
  | Event.delete _ => true
  | Event.insert _ _ => false

/-- Whether an event list contains a delete. -/
def hasDelete (es : List Event) : Bool :=
  es.any isDelete

/-- Whether a `PyResult` is a returned boolean (Python `True` or
`False`, as opposed to `None` or an uncaught exception). -/
def returnsBool : PyResult → Bool
  | PyResult.ret (some _) => true
  | _ => false

/-- The field names of an insert payload, in payload order. -/
def payloadKeys : Event → List String
  | Event.insert _ p => p.map Prod.fst
  | Event.delete _ => []

/-- Whether an event payload carries neither timestamp field. -/
def noTimestampKeys (e : Event) : Bool :=
  (eventField e "created_at").isNone && (eventField e "last_modified").isNone

/-- The page-insert event for 1-based page `n`. -/
def pageEvent (env : Env) (docId n : Nat) : Event :=
  Event.insert "document_pages" (pagePayload env docId n)

/-- A concrete environment whose path does not exist; every external
collaborator is otherwise benign. -/
def envMissing : Env :=
  { pathExists := false, fileName := "report.pdf", fileSize := 2048,
    ctime := "2024-01-01T00:00:00", mtime := "2024-01-02T00:00:00",
    openResult := some 2, author := "a", title := "t", description := "d",
    versionInput := "", docInsertResult := some 7,
    pageInsertOk := fun _ => true, pageImage := fun _ => "imgdata" }

/-- A concrete environment for a fully successful two-page ingestion. -/
def baseEnv : Env :=
  { envMissing with pathExists := true }

/-! ### Helper lemmas about the embedding -/

theorem isPageInsert_page (env : Env) (docId n : Nat) :
    isPageInsert (pageEvent env docId n) = true := rfl

theorem isDocInsert_page (env : Env) (docId n : Nat) :
    isDocInsert (pageEvent env docId n) = false := rfl

theorem eventField_page_docId (env : Env) (docId n : Nat) :
    eventField (pageEvent env docId n) "document_id"
      = some (Value.nat docId) := rfl

theorem pageNumOf_page (env : Env) (docId n : Nat) :
    pageNumOf (pageEvent env docId n) = some n := rfl

theorem eventField_doc_version (env : Env) (P : Nat) :
    eventField (Event.insert "documents" (documentPayload env P)) "version"
      = some (Value.str
          (if env.versionInput = "" then "1.0" else env.versionInput)) := rfl

theorem eventField_doc_ext (env : Env) (P : Nat) :
    eventField (Event.insert "documents" (documentPayload env P))
        "file_extension"
      = some (Value.str (pyDropFirst (pySuffix env.fileName))) := rfl

theorem eventField_doc_pageCount (env : Env) (P : Nat) :
    eventField (Event.insert "documents" (documentPayload env P)) "page_count"
      = some (Value.nat P) := rfl

/-- The page loop with every page insert succeeding: one event and one
file per page, in order, completing normally. -/
theorem processPages_ok (env : Env) (docId : Nat) (base : String)
    (l : List Nat) (h : ∀ n ∈ l, env.pageInsertOk (n + 1) = true) :
    processPages env docId base l =
      (l.map fun n => pageEvent env docId (n + 1),
       l.map fun n => pageFileName base (n + 1), true) := by
  induction l with
  | nil => rfl
  | cons a t ih =>
    have ha : env.pageInsertOk (a + 1) = true := h a (List.mem_cons_self a t)
    have ht : ∀ n ∈ t, env.pageInsertOk (n + 1) = true :=
      fun n hn => h n (List.mem_cons_of_mem a hn)
    simp [processPages, ha, ih ht, pageEvent]

/-- The page loop when the insert of page `a + 1` raises after every
earlier page succeeded: the earlier events, the earlier files plus the
failing page's file, and an abnormal exit. -/
theorem processPages_fail (env : Env) (docId : Nat) (base : String)
    (l1 : List Nat) (a : Nat) (l2 : List Nat)
    (h1 : ∀ n ∈ l1, env.pageInsertOk (n + 1) = true)
    (ha : env.pageInsertOk (a + 1) = false) :
    processPages env docId base (l1 ++ a :: l2) =
      (l1.map fun n => pageEvent env docId (n + 1),
       (l1.map fun n => pageFileName base (n + 1))
         ++ [pageFileName base (a + 1)],
       false) := by
  induction l1 with
  | nil => simp [processPages, ha]
  | cons b t ih =>
    have hb : env.pageInsertOk (b + 1) = true := h1 b (List.mem_cons_self b t)
    have ht : ∀ n ∈ t, env.pageInsertOk (n + 1) = true :=
      fun n hn => h1 n (List.mem_cons_of_mem b hn)
    simp [processPages, hb, ih ht, pageEvent]

/-- No event the page loop emits is an insert into `documents`. -/
theorem processPages_no_doc (env : Env) (docId : Nat) (base : String)
    (l : List Nat) :
    (processPages env docId base l).1.filter isDocInsert = [] := by
  induction l with
  | nil => rfl
  | cons a t ih =>
    cases hb : env.pageInsertOk (a + 1) with
    | false => simp [processPages, hb]
    | true => simp [processPages, hb, List.filter_cons, isDocInsert, ih]

theorem filter_isPage_map (env : Env) (docId : Nat) (l : List Nat) :
    (l.map fun n => pageEvent env docId (n + 1)).filter isPageInsert
      = l.map fun n => pageEvent env docId (n + 1) := by
  induction l with
  | nil => rfl
  | cons a t ih => exact congrArg (List.cons _) ih

theorem filter_isDoc_map (env : Env) (docId : Nat) (l : List Nat) :
    (l.map fun n => pageEvent env docId (n + 1)).filter isDocInsert = [] := by
  induction l with
  | nil => rfl
  | cons a t ih => exact ih

theorem filterMap_pageNum_map (env : Env) (docId : Nat) (l : List Nat) :
    ((l.map fun n => pageEvent env docId (n + 1)).filterMap pageNumOf)
      = l.map (· + 1) := by
  induction l with
  | nil => rfl
  | cons a t ih => exact congrArg (List.cons _) ih

theorem map_docId_pages (env : Env) (docId : Nat) (l : List Nat) :
    ((l.map fun n => pageEvent env docId (n + 1)).map
       fun e => eventField e "document_id")
      = List.replicate l.length (some (Value.nat docId)) := by
  induction l with
  | nil => rfl
  | cons a t ih => exact congrArg (List.cons _) ih

theorem hasDelete_pages (env : Env) (docId : Nat) (l : List Nat) :
    hasDelete (l.map fun n => pageEvent env docId (n + 1)) = false := by
  induction l with
  | nil => rfl
  | cons a t ih => exact ih

theorem all_noTimestamp_pages (env : Env) (docId : Nat) (l : List Nat) :
    (l.map fun n => pageEvent env docId (n + 1)).all noTimestampKeys
      = true := by
  induction l with
  | nil => rfl
  | cons a t ih => exact ih

theorem map_add_one_range (P : Nat) :
    (List.range P).map (· + 1) = List.range' 1 P := by
  induction P with
  | zero => rfl
  | succ n ih =>
    rw [List.range_succ, List.map_append, ih, List.range'_1_concat]
    simp [Nat.add_comm]

theorem range_split (N P : Nat) (h : N < P) :
    ∃ l2, List.range P = List.range N ++ N :: l2 := by
  induction P with
  | zero => exact absurd h (Nat.not_lt_zero N)
  | succ p ih =>
    rcases Nat.lt_succ_iff_lt_or_eq.mp h with h1 | h1
    · obtain ⟨l2, hl⟩ := ih h1
      exact ⟨l2 ++ [p], by rw [List.range_succ, hl]; simp⟩
    · subst h1
      exact ⟨[], by rw [List.range_succ]⟩

/-! ### Claim theorems -/

/-- C1: for a successfully ingested document with `P` pages, exactly
`P` page inserts are persisted, their `page_number` values are the
exact sequence `1..P` in insertion order, and every page insert
references the `document_id` the Document insert returned. -/
theorem C1_page_rows (env : Env) (P docId : Nat)
    (hpath : env.pathExists = true)
    (hopen : env.openResult = some P)
    (hdoc : env.docInsertResult = some docId)
    (hok : ∀ n, env.pageInsertOk n = true) :
    (process_document env).1 = PyResult.ret (some true) ∧
    (pageInsertEvents (process_document env).2).length = P ∧
    pageNumbersOf (process_document env).2 = List.range' 1 P ∧
    ((pageInsertEvents (process_document env).2).map
        fun e => eventField e "document_id")
      = List.replicate P (some (Value.nat docId)) := by
  have hpp := processPages_ok env docId (pyStem env.fileName) (List.range P)
    (fun n _ => hok (n + 1))
  have hpd : process_document env =
      (PyResult.ret (some true),
       ⟨Event.insert "documents" (documentPayload env P) ::
          ((List.range P).map fun n => pageEvent env docId (n + 1)),
        (List.range P).map fun n => pageFileName (pyStem env.fileName) (n + 1),
        true, true⟩) := by
    simp [process_document, hpath, hopen, hdoc, hpp, pageEvent]
  rw [hpd]
  have h2 : pageInsertEvents
      ⟨Event.insert "documents" (documentPayload env P) ::
         ((List.range P).map fun n => pageEvent env docId (n + 1)),
       (List.range P).map fun n => pageFileName (pyStem env.fileName) (n + 1),
       true, true⟩
      = (List.range P).map fun n => pageEvent env docId (n + 1) :=
    filter_isPage_map env docId (List.range P)
  refine ⟨rfl, ?_, ?_, ?_⟩
  · rw [h2, List.length_map, List.length_range]
  · unfold pageNumbersOf
    rw [h2, filterMap_pageNum_map, map_add_one_range]
  · rw [h2, map_docId_pages, List.length_range]

/-- C2: a backend error during the insert of page `N` (the Document
insert having succeeded) leaves exactly one persisted Document insert
and exactly `N - 1` persisted Page inserts, no delete is ever issued,
the document handle is closed, and the call returns `False`. -/
theorem C2_partial_failure (env : Env) (P N docId : Nat)
    (hpath : env.pathExists = true)
    (hopen : env.openResult = some P)
    (hdoc : env.docInsertResult = some docId)
    (hN1 : 1 ≤ N) (hNP : N ≤ P)
    (hok : ∀ k, 1 ≤ k → k < N → env.pageInsertOk k = true)
    (hfail : env.pageInsertOk N = false) :
    (process_document env).1 = PyResult.ret (some false) ∧
    (docInsertEvents (process_document env).2).length = 1 ∧
    (pageInsertEvents (process_document env).2).length = N - 1 ∧
    hasDelete (process_document env).2.events = false ∧
    (process_document env).2.closed = true := by
  obtain ⟨l2, hl⟩ := range_split (N - 1) P (by omega)
  have hN : N - 1 + 1 = N := by omega
  have h1 : ∀ n ∈ List.range (N - 1), env.pageInsertOk (n + 1) = true := by
    intro n hn
    have : n < N - 1 := List.mem_range.mp hn
    exact hok (n + 1) (by omega) (by omega)
  have ha : env.pageInsertOk (N - 1 + 1) = false := by rw [hN]; exact hfail
  have hpp := processPages_fail env docId (pyStem env.fileName)
    (List.range (N - 1)) (N - 1) l2 h1 ha
  have hpd : process_document env =
      (PyResult.ret (some false),
       ⟨Event.insert "documents" (documentPayload env P) ::
          ((List.range (N - 1)).map fun n => pageEvent env docId (n + 1)),
        ((List.range (N - 1)).map
           fun n => pageFileName (pyStem env.fileName) (n + 1))
          ++ [pageFileName (pyStem env.fileName) (N - 1 + 1)],
        true, true⟩) := by
    rw [process_document, hpath, hopen, hdoc]
    simp [hl, hpp, pageEvent]
  rw [hpd]
  have h2 : pageInsertEvents
      ⟨Event.insert "documents" (documentPayload env P) ::
         ((List.range (N - 1)).map fun n => pageEvent env docId (n + 1)),
       ((List.range (N - 1)).map
          fun n => pageFileName (pyStem env.fileName) (n + 1))
         ++ [pageFileName (pyStem env.fileName) (N - 1 + 1)],
       true, true⟩
      = (List.range (N - 1)).map fun n => pageEvent env docId (n + 1) :=
    filter_isPage_map env docId (List.range (N - 1))
  have h3 : docInsertEvents
      ⟨Event.insert "documents" (documentPayload env P) ::
         ((List.range (N - 1)).map fun n => pageEvent env docId (n + 1)),
       ((List.range (N - 1)).map
          fun n => pageFileName (pyStem env.fileName) (n + 1))
         ++ [pageFileName (pyStem env.fileName) (N - 1 + 1)],
       true, true⟩
      = [Event.insert "documents" (documentPayload env P)] :=
    congrArg (List.cons _) (filter_isDoc_map env docId (List.range (N - 1)))
  refine ⟨rfl, ?_, ?_, ?_, rfl⟩
  · rw [h3]; rfl
  · rw [h2, List.length_map, List.length_range]
  · exact hasDelete_pages env docId (List.range (N - 1))

/-- After a successful open and Document insert, the trace is the
Document insert followed by whatever the page loop produced, with the
handle opened and closed, whether or not the loop completed. -/
theorem process_document_trace (env : Env) (P docId : Nat)
    (hpath : env.pathExists = true)
    (hopen : env.openResult = some P)
    (hdoc : env.docInsertResult = some docId) :
    (process_document env).2 =
      ⟨Event.insert "documents" (documentPayload env P) ::
         (processPages env docId (pyStem env.fileName) (List.range P)).1,
       (processPages env docId (pyStem env.fileName) (List.range P)).2.1,
       true, true⟩ := by
  cases hr : (processPages env docId (pyStem env.fileName) (List.range P)).2.2 <;>
    simp [process_document, hpath, hopen, hdoc, hr]

/-- C3 counterexample: on a nonexistent path the call returns the
Python `None` value, which is a failure indication with no inserts and
no file writes but is not a boolean. -/
theorem C3_counterexample :
    (process_document envMissing).1 = PyResult.ret none ∧
    returnsBool (process_document envMissing).1 = false ∧
    (process_document envMissing).2.events = [] ∧
    (process_document envMissing).2.files = [] :=
  ⟨rfl, rfl, rfl, rfl⟩

/-- C3 (amended): for every nonexistent path, the call performs zero
backend inserts and zero output-file writes, does not raise, and
returns the Python `None` value as its falsy, non-boolean failure
indication. -/
theorem C3_missing_path (env : Env) (hpath : env.pathExists = false) :
    process_document env = (PyResult.ret none, ⟨[], [], false, false⟩) := by
  simp [process_document, hpath]

theorem C3_missing_path_witness :
    envMissing.pathExists = false ∧
    process_document envMissing
      = (PyResult.ret none, ⟨[], [], false, false⟩) :=
  ⟨rfl, C3_missing_path envMissing rfl⟩

/-- An environment whose file has an upper-case extension. -/
def envUpper : Env := { baseEnv with fileName := "DOC.PDF" }

/-- C4 counterexample: for the path `DOC.PDF` the metadata extractor
returns file_extension `"PDF"`, not the lower-cased `"pdf"` the claim
requires. -/
theorem C4_counterexample :
    (get_file_info envUpper).file_extension = "PDF" ∧
    pyLower (pyDropFirst (pySuffix envUpper.fileName)) = "pdf" ∧
    (get_file_info envUpper).file_extension ≠
      pyLower (pyDropFirst (pySuffix envUpper.fileName)) := by
  refine ⟨?_, ?_, ?_⟩ <;> decide

/-- C4 (amended): for every input path, the file_extension field the
metadata extractor returns is the file's extension stripped of its
leading separator with its case preserved (it is not lower-cased), and
that exact string is submitted in the Document insert. -/
theorem C4_extension (env : Env) (P docId : Nat)
    (hpath : env.pathExists = true)
    (hopen : env.openResult = some P)
    (hdoc : env.docInsertResult = some docId) :
    (get_file_info env).file_extension = pyDropFirst (pySuffix env.fileName) ∧
    ((docInsertEvents (process_document env).2).map
        fun e => eventField e "file_extension")
      = [some (Value.str (pyDropFirst (pySuffix env.fileName)))] := by
  have htr := process_document_trace env P docId hpath hopen hdoc
  have hde : docInsertEvents (process_document env).2
      = [Event.insert "documents" (documentPayload env P)] := by
    rw [htr]
    exact congrArg (List.cons _)
      (processPages_no_doc env docId (pyStem env.fileName) (List.range P))
  refine ⟨rfl, ?_⟩
  rw [hde]
  rfl

theorem C4_extension_witness :
    envUpper.pathExists = true ∧
    ((get_file_info envUpper).file_extension
        = pyDropFirst (pySuffix envUpper.fileName) ∧
     ((docInsertEvents (process_document envUpper).2).map
         fun e => eventField e "file_extension")
       = [some (Value.str (pyDropFirst (pySuffix envUpper.fileName)))]) :=
  ⟨rfl, C4_extension envUpper 2 7 rfl rfl rfl⟩

/-- The classification table exactly as the specification words it:
lower-case the extension, then map `.pdf` to PDF, `.doc`/`.docx` to
Word, `.ppt`/`.pptx` to PowerPoint, anything else (including none) to
Other. -/
def classifySpecTable (extension : String) : String :=
  let e := pyLower extension
  if e = ".pdf" then "PDF"
  else if e = ".doc" ∨ e = ".docx" then "Word"
  else if e = ".ppt" ∨ e = ".pptx" then "PowerPoint"
  else "Other"

/-- C5: the source classification agrees with the specification table
on every extension string (lower-casing first, then the fixed table,
defaulting to Other). -/
theorem C5_classification (ext : String) :
    determine_file_type ext = classifySpecTable ext := by
  simp only [determine_file_type, classifySpecTable]
  split_ifs <;> simp_all

/-- C6: once ingestion reaches the Document insert, an empty operator
response to the version prompt stores exactly `"1.0"`, and a non-empty
response is stored verbatim. -/
theorem C6_version (env : Env) (P docId : Nat)
    (hpath : env.pathExists = true)
    (hopen : env.openResult = some P)
    (hdoc : env.docInsertResult = some docId) :
    (env.versionInput = "" →
      ((docInsertEvents (process_document env).2).map
          fun e => eventField e "version")
        = [some (Value.str "1.0")]) ∧
    (env.versionInput ≠ "" →
      ((docInsertEvents (process_document env).2).map
          fun e => eventField e "version")
        = [some (Value.str env.versionInput)]) := by
  have htr := process_document_trace env P docId hpath hopen hdoc
  have hde : docInsertEvents (process_document env).2
      = [Event.insert "documents" (documentPayload env P)] := by
    rw [htr]
    exact congrArg (List.cons _)
      (processPages_no_doc env docId (pyStem env.fileName) (List.range P))
  rw [hde]
  constructor
  · intro h
    simp only [List.map_cons, List.map_nil, eventField_doc_version, if_pos h]
  · intro h
    simp only [List.map_cons, List.map_nil, eventField_doc_version, if_neg h]

theorem C6_version_witness :
    baseEnv.versionInput = "" ∧
    ((docInsertEvents (process_document baseEnv).2).map
        fun e => eventField e "version")
      = [some (Value.str "1.0")] :=
  ⟨rfl, (C6_version baseEnv 2 7 rfl rfl rfl).1 rfl⟩

/-- An environment with a given byte size. -/
def envSize (s : Nat) : Env := { baseEnv with fileSize := s }

/-- C7: size_kb is the byte size divided by 1024 truncated toward
zero: it is the unique quotient `q` with
`q * 1024 ≤ size < (q + 1) * 1024`; in particular 2047 bytes give 1,
1024 bytes give 1, and 1023 bytes give 0. -/
theorem C7_size_kb (env : Env) :
    (get_file_info env).size_kb * 1024 ≤ env.fileSize ∧
    env.fileSize < ((get_file_info env).size_kb + 1) * 1024 ∧
    (get_file_info (envSize 2047)).size_kb = 1 ∧
    (get_file_info (envSize 1024)).size_kb = 1 ∧
    (get_file_info (envSize 1023)).size_kb = 0 := by
  have h : (get_file_info env).size_kb = env.fileSize / 1024 := rfl
  rw [h]
  refine ⟨?_, ?_, rfl, rfl, rfl⟩ <;> omega

/-- An environment whose open call raises (corrupt or unsupported
file). -/
def envOpenFail : Env := { baseEnv with openResult := none }

/-- C8: for an existing path whose open raises, the error propagates
out of process_document uncaught, with no insert persisted, no file
written, and no conversion into a failure return. -/
theorem C8_open_failure (env : Env)
    (hpath : env.pathExists = true) (hopen : env.openResult = none) :
    process_document env
      = (PyResult.raised "fitz.open", ⟨[], [], false, false⟩) := by
  simp [process_document, hpath, hopen]

theorem C8_open_failure_witness :
    envOpenFail.pathExists = true ∧
    process_document envOpenFail
      = (PyResult.raised "fitz.open", ⟨[], [], false, false⟩) :=
  ⟨rfl, C8_open_failure envOpenFail rfl rfl⟩

/-- An environment whose document opens with zero pages. -/
def envZeroPages : Env := { baseEnv with openResult := some 0 }

/-- C9: for an existing zero-page document, exactly one Document
insert with page_count 0 is persisted, no page insert happens and no
image file is written, and the call returns `True`. -/
theorem C9_zero_pages (env : Env) (docId : Nat)
    (hpath : env.pathExists = true)
    (hopen : env.openResult = some 0)
    (hdoc : env.docInsertResult = some docId) :
    process_document env =
      (PyResult.ret (some true),
       ⟨[Event.insert "documents" (documentPayload env 0)], [],
        true, true⟩) ∧
    eventField (Event.insert "documents" (documentPayload env 0))
        "page_count" = some (Value.nat 0) := by
  refine ⟨?_, rfl⟩
  simp [process_document, hpath, hopen, hdoc, processPages]

theorem C9_zero_pages_witness :
    envZeroPages.openResult = some 0 ∧
    (process_document envZeroPages =
       (PyResult.ret (some true),
        ⟨[Event.insert "documents" (documentPayload envZeroPages 0)], [],
         true, true⟩) ∧
     eventField (Event.insert "documents" (documentPayload envZeroPages 0))
         "page_count" = some (Value.nat 0)) :=
  ⟨rfl, C9_zero_pages envZeroPages 7 rfl rfl rfl⟩

/-- C10: on a successful ingestion the Document insert payload has
exactly the nine fields in source order, and no insert of the run
carries the created_at or last_modified timestamps computed by the
metadata extractor. -/
theorem C10_payload_fields (env : Env) (P docId : Nat)
    (hpath : env.pathExists = true)
    (hopen : env.openResult = some P)
    (hdoc : env.docInsertResult = some docId)
    (hok : ∀ n, env.pageInsertOk n = true) :
    (process_document env).1 = PyResult.ret (some true) ∧
    ((docInsertEvents (process_document env).2).map payloadKeys)
      = [["filename", "file_extension", "file_type", "size_kb", "author",
          "description", "page_count", "title", "version"]] ∧
    (process_document env).2.events.all noTimestampKeys = true := by
  have hpp := processPages_ok env docId (pyStem env.fileName) (List.range P)
    (fun n _ => hok (n + 1))
  have hpd : process_document env =
      (PyResult.ret (some true),
       ⟨Event.insert "documents" (documentPayload env P) ::
          ((List.range P).map fun n => pageEvent env docId (n + 1)),
        (List.range P).map fun n => pageFileName (pyStem env.fileName) (n + 1),
        true, true⟩) := by
    simp [process_document, hpath, hopen, hdoc, hpp, pageEvent]
  rw [hpd]
  refine ⟨rfl, ?_, ?_⟩
  · show (Event.insert "documents" (documentPayload env P) ::
        ((List.range P).map fun n => pageEvent env docId (n + 1)).filter
          isDocInsert).map payloadKeys = _
    rw [filter_isDoc_map env docId (List.range P)]
    rfl
  · exact all_noTimestamp_pages env docId (List.range P)

theorem C10_payload_fields_witness :
    baseEnv.openResult = some 2 ∧
    ((process_document baseEnv).1 = PyResult.ret (some true) ∧
     ((docInsertEvents (process_document baseEnv).2).map payloadKeys)
       = [["filename", "file_extension", "file_type", "size_kb", "author",
           "description", "page_count", "title", "version"]] ∧
     (process_document baseEnv).2.events.all noTimestampKeys = true) :=
  ⟨rfl, C10_payload_fields baseEnv 2 7 rfl rfl rfl (fun _ => rfl)⟩

theorem C1_page_rows_witness :
    baseEnv.pathExists = true ∧
    ((process_document baseEnv).1 = PyResult.ret (some true) ∧
     (pageInsertEvents (process_document baseEnv).2).length = 2 ∧
     pageNumbersOf (process_document baseEnv).2 = List.range' 1 2 ∧
     ((pageInsertEvents (process_document baseEnv).2).map
         fun e => eventField e "document_id")
       = List.replicate 2 (some (Value.nat 7))) :=
  ⟨rfl, C1_page_rows baseEnv 2 7 rfl rfl rfl (fun _ => rfl)⟩

/-- An environment where the insert of page 2 raises and everything
before it succeeds. -/
def envPageFail : Env :=
  { baseEnv with pageInsertOk := fun k => decide (k < 2) }

theorem C2_partial_failure_witness :
    envPageFail.pageInsertOk 2 = false ∧
    ((process_document envPageFail).1 = PyResult.ret (some false) ∧
     (docInsertEvents (process_document envPageFail).2).length = 1 ∧
     (pageInsertEvents (process_document envPageFail).2).length = 2 - 1 ∧
     hasDelete (process_document envPageFail).2.events = false ∧
     (process_document envPageFail).2.closed = true) :=
  ⟨rfl, C2_partial_failure envPageFail 2 2 7 rfl rfl rfl (by omega) (by omega)
     (fun k _ h2 => decide_eq_true h2) rfl⟩
